import Mathlib

/-!
Shallow embedding of the meme-ai-agent social-media bot core, translated from
the TypeScript sources:

* `TwitterService` (OAuth REST client wrapper): `postTweet`, `postTweetWithRetry`,
  `getRateLimitReset`, `validateTweetContent`, `getTweetCount`, `getRemainingTweets`.
* `AgentTwitterClientService` (session-based scraper facade): `sendTweet`,
  `postTweet`, `replyToTweet`, `likeTweet`, `retweet`, `getProfile`, and the
  polling tick installed by `startStream`.

Asynchronous network calls are modelled by passing in each call's outcome;
wall-clock time is modelled as a natural number of milliseconds that advances
exactly by the requested sleep durations (cooperative single-task model).
Thrown JavaScript exceptions are modelled as `Except.error` carrying the
error message; a caught-and-returned failure is an ordinary return value.
-/

namespace TwitterService

/-- Errors thrown by the `twitter-api-v2` SDK, as inspected by the service:
`ApiResponseError` carries an HTTP status code and optional rate-limit reset
metadata (`error.rateLimit?.reset`, in epoch seconds) plus a message;
`ApiRequestError` and plain errors carry only a message. -/
inductive ApiError where
  | response (code : Nat) (rateLimitReset : Option Nat) (message : String)
  | request (message : String)
  | generic (message : String)

/-- The `message` property of the thrown error object. -/
def ApiError.message : ApiError → String
  | .response _ _ m => m
  | .request m => m
  | .generic m => m

/-- The check `error instanceof ApiResponseError && error.code === 429`
performed by `postTweetWithRetry`. -/
def isRateLimitHit : ApiError → Bool
  | .response code _ _ => code == 429
  | _ => false

/-- `getRateLimitReset` (part_000 lines 272-283): reads `error.rateLimit?.reset`
and converts it from epoch seconds to milliseconds; `null` when absent. -/
def getRateLimitReset : ApiError → Option Nat
  | .response _ (some reset) _ => some (reset * 1000)
  | _ => none

/-- The retry-relevant configuration of `TwitterService` (`maxRetries`
defaults to 3, `retryDelay` to 5000 ms in the constructor). -/
structure RetryConfig where
  maxRetries : Nat
  retryDelay : Nat

/-- A finished run of `postTweetWithRetry`: the list of `postTweet` calls made
(attempt index paired with the wall-clock time of the call, in ms) and the
overall outcome (`Except.error` is the thrown terminal error's message). -/
structure RetryRun where
  calls : List (Nat × Nat)
  outcome : Except String Unit

/-- `lastError?.message || 'Unknown error'`: JavaScript `||` falls back on the
empty string as well as on an absent error. -/
def lastErrorMessage : Option ApiError → String
  | some e => if e.message = "" then "Unknown error" else e.message
  | none => "Unknown error"

/-- The terminal error thrown when the while-loop of `postTweetWithRetry`
exits with all attempts used (part_000 line 67). -/
def terminalMessage (maxRetries : Nat) (lastError : Option ApiError) : String :=
  "Failed to post tweet after " ++ toString maxRetries ++ " attempts: " ++
    lastErrorMessage lastError

/-- The rate-limit branch decision of `postTweetWithRetry` (lines 47-58):
when the error is a 429 `ApiResponseError` whose converted reset timestamp
lies strictly in the future, the loop sleeps until that timestamp (returned
here); in every other case it falls through to the exponential backoff. -/
def rateLimitWait (e : ApiError) (now : Nat) : Option Nat :=
  if isRateLimitHit e then
    match getRateLimitReset e with
    | some resetTime => if now < resetTime then some resetTime else none
    | none => none
  else none

/-- Record one `postTweet` call at the head of a run's trace. -/
def consCall (attempt now : Nat) (r : RetryRun) : RetryRun :=
  ⟨(attempt, now) :: r.calls, r.outcome⟩

/-- The while-loop of `postTweetWithRetry` (part_000 lines 35-68).  The loop
guard `attempt < maxRetries` is realised by the fuel argument, which always
equals `maxRetries - attempt`; `op i` is the outcome of the (i+1)-th
`postTweet` call.  On failure the counter is incremented first (line 46);
the rate-limit branch then sleeps until the reset timestamp and `continue`s,
while every other failure sleeps `retryDelay * 2 ^ attempt` (with the already
incremented counter, line 61) when a further attempt remains. -/
def postTweetWithRetryGo (cfg : RetryConfig) (op : Nat → Except ApiError Unit) :
    Nat → Nat → Nat → Option ApiError → RetryRun
  | 0, _, _, lastError => ⟨[], .error (terminalMessage cfg.maxRetries lastError)⟩
  | fuel + 1, attempt, now, _ =>
    match op attempt with
    | .ok _ => ⟨[(attempt, now)], .ok ()⟩
    | .error e =>
      match rateLimitWait e now with
      | some resetTime =>
        consCall attempt now
          (postTweetWithRetryGo cfg op fuel (attempt + 1) resetTime (some e))
      | none =>
        if attempt + 1 < cfg.maxRetries then
          consCall attempt now
            (postTweetWithRetryGo cfg op fuel (attempt + 1)
              (now + cfg.retryDelay * 2 ^ (attempt + 1)) (some e))
        else
          consCall attempt now
            (postTweetWithRetryGo cfg op fuel (attempt + 1) now (some e))

/-- `postTweetWithRetry(content)` entered at wall-clock time `startTime` with
attempt counter 0 and no recorded last error. -/
def postTweetWithRetry (cfg : RetryConfig) (op : Nat → Except ApiError Unit)
    (startTime : Nat) : RetryRun :=
  postTweetWithRetryGo cfg op cfg.maxRetries 0 startTime none

/-- The inline validation at the top of `postTweet` (part_000 lines 9-14):
an empty string is falsy, then the 280-character ceiling is enforced. -/
def postTweetValidation (content : String) : Except String Unit :=
  if content = "" then .error "Tweet content cannot be empty"
  else if 280 < content.length then .error "Tweet exceeds 280 characters"
  else .ok ()

/-- `postTweet` (part_000 lines 6-34) on its media-free path (`options = {}`):
validate, then submit via the user client; any failure is rethrown. -/
def postTweet (content : String) (send : String → Except ApiError Unit) :
    Except String Unit :=
  match postTweetValidation content with
  | .error m => .error m
  | .ok _ =>
    match send content with
    | .ok _ => .ok ()
    | .error e => .error e.message

/-- The `contentRules` relevant to `validateTweetContent` (both default to 0
in the constructor). -/
structure ContentRules where
  maxEmojis : Nat
  maxHashtags : Nat

/-- Count of code points matched by `/[\u{1F600}-\u{1F64F}]/gu`. -/
def countEmojis (content : String) : Nat :=
  (content.toList.filter fun c => 0x1F600 ≤ c.toNat && c.toNat ≤ 0x1F64F).length

/-- Count of occurrences matched by `/#/g`. -/
def countHashtags (content : String) : Nat :=
  (content.toList.filter fun c => c == '#').length

/-- `validateTweetContent` (part_000 lines 352-362): checks emoji and hashtag
counts against the configured maxima; note it performs no length check. -/
def validateTweetContent (rules : ContentRules) (content : String) :
    Except String Unit :=
  if rules.maxEmojis < countEmojis content then
    .error ("Tweet contains too many emojis. Maximum allowed is " ++
      toString rules.maxEmojis ++ ".")
  else if rules.maxHashtags < countHashtags content then
    .error ("Tweet contains too many hashtags. Maximum allowed is " ++
      toString rules.maxHashtags ++ ".")
  else .ok ()

/-- The mutable instance state of `TwitterService` that its methods write to.
`tweetCount` is declared with initialiser 0 (part_000 line 480) and is never
assigned anywhere else in the class. -/
structure ServiceState where
  isStreaming : Bool
  userId : Option String
  marketUpdatesActive : Bool
  tweetCount : Nat

/-- The state produced by the constructor: not streaming, no verified user,
no market-update interval, `tweetCount = 0`. -/
def initialServiceState : ServiceState :=
  ⟨false, none, false, 0⟩

/-- The operations of `TwitterService` that touch instance state, plus the
read-only tweet-posting operations, abstracted to their state effect. -/
inductive ServiceOp where
  | verifyUserAuth (uid : String)
  | startStreamOk
  | streamError
  | startMarketUpdates
  | stopMarketUpdates
  | postTweetOp
  | tweetOp
  | postTweetWithRetryOp
  | publishMarketUpdate
  | stopOp

/-- State effect of each method: `verifyUserAuth` stores the user id,
`startStream` sets `isStreaming`, `handleStreamError` clears it,
`startMarketUpdates` / `stopMarketUpdates` toggle the interval handle; the
posting methods and `stop` leave the instance state unchanged.  No method
writes `tweetCount`. -/
def applyOp (s : ServiceState) : ServiceOp → ServiceState
  | .verifyUserAuth uid => { s with userId := some uid }
  | .startStreamOk => { s with isStreaming := true }
  | .streamError => { s with isStreaming := false }
  | .startMarketUpdates => { s with marketUpdatesActive := true }
  | .stopMarketUpdates => { s with marketUpdatesActive := false }
  | .postTweetOp => s
  | .tweetOp => s
  | .postTweetWithRetryOp => s
  | .publishMarketUpdate => s
  | .stopOp => s

/-- States reachable from the constructor by any sequence of operations. -/
inductive Reachable : ServiceState → Prop
  | init : Reachable initialServiceState
  | step (s : ServiceState) (o : ServiceOp) : Reachable s → Reachable (applyOp s o)

/-- `MONTHLY_TWEET_LIMIT = 3000` (part_000 line 97). -/
def MONTHLY_TWEET_LIMIT : Nat := 3000

/-- `getTweetCount()` (part_000 lines 481-483). -/
def getTweetCount (s : ServiceState) : Nat := s.tweetCount

/-- `getRemainingTweets()` (part_000 lines 484-486). -/
def getRemainingTweets (s : ServiceState) : Nat :=
  MONTHLY_TWEET_LIMIT - getTweetCount s

end TwitterService

namespace AgentClient

/-- The facade's own state: whether `initialize()` completed (`isInitialized`)
and whether the `scraper` field is non-null. -/
structure AgentState where
  isInitialized : Bool
  hasScraper : Bool

/-- One invocation of the underlying `agent-twitter-client` scraper.  The
scraper's `sendTweet(text)` posts an ordinary tweet and takes no reply-target
argument. -/
inductive ScraperCall where
  | sendTweet (text : String)
  | likeTweet (tweetId : String)
  | retweet (tweetId : String)
  | getProfile (username : String)

/-- Outcome of a scraper invocation: success, or a thrown error with the
given message. -/
inductive CallOutcome where
  | ok
  | err (message : String)

/-- The `{ success: boolean; error?: Error }` result shape returned by the
tweet-level facade operations; the error is modelled by its message. -/
structure TweetResult where
  success : Bool
  error : Option String

/-- A finished facade operation: the scraper calls it performed, and either a
returned value (`Except.ok`) or an exception escaping the method
(`Except.error`, carrying the message). -/
structure OpRun (α : Type) where
  calls : List ScraperCall
  result : Except String α

/-- The message of the error thrown by `ensureInitialized`. -/
def notInitializedMessage : String :=
  "AgentTwitterClientService not initialized. Call initialize() first."

/-- `ensureInitialized` (agentTwitterClient.ts lines 57-61). -/
def ensureInitialized (st : AgentState) : Except String Unit :=
  if !st.isInitialized || !st.hasScraper then .error notInitializedMessage
  else .ok ()

/-- `sendTweet` (lines 63-76): everything, `ensureInitialized` included, runs
inside try/catch; a caught error is returned as `{ success: false, error }`. -/
def sendTweet (st : AgentState) (content : String) (outcome : CallOutcome) :
    OpRun TweetResult :=
  match ensureInitialized st with
  | .error m => ⟨[], .ok ⟨false, some m⟩⟩
  | .ok _ =>
    if st.hasScraper then
      match outcome with
      | .ok => ⟨[.sendTweet content], .ok ⟨true, none⟩⟩
      | .err m => ⟨[.sendTweet content], .ok ⟨false, some m⟩⟩
    else ⟨[], .ok ⟨false, some "Scraper not initialized"⟩⟩

/-- `postTweet` (lines 79-81) is a direct alias for `sendTweet`. -/
def postTweet (st : AgentState) (content : String) (outcome : CallOutcome) :
    OpRun TweetResult :=
  sendTweet st content outcome

/-- The reply text built by `replyToTweet` (line 88). -/
def replyContent (username content : String) : String :=
  if username.startsWith "@" then username ++ " " ++ content
  else "@" ++ username ++ " " ++ content

/-- `replyToTweet` (lines 83-98): mentions the user in the text and submits
it through the scraper's plain `sendTweet`; the `tweetId` parameter is never
read. -/
def replyToTweet (st : AgentState) (tweetId content username : String)
    (outcome : CallOutcome) : OpRun TweetResult :=
  match ensureInitialized st with
  | .error m => ⟨[], .ok ⟨false, some m⟩⟩
  | .ok _ =>
    if st.hasScraper then
      match outcome with
      | .ok => ⟨[.sendTweet (replyContent username content)], .ok ⟨true, none⟩⟩
      | .err m => ⟨[.sendTweet (replyContent username content)], .ok ⟨false, some m⟩⟩
    else ⟨[], .ok ⟨false, some "Scraper not initialized"⟩⟩

/-- `likeTweet` (lines 100-113). -/
def likeTweet (st : AgentState) (tweetId : String) (outcome : CallOutcome) :
    OpRun TweetResult :=
  match ensureInitialized st with
  | .error m => ⟨[], .ok ⟨false, some m⟩⟩
  | .ok _ =>
    if st.hasScraper then
      match outcome with
      | .ok => ⟨[.likeTweet tweetId], .ok ⟨true, none⟩⟩
      | .err m => ⟨[.likeTweet tweetId], .ok ⟨false, some m⟩⟩
    else ⟨[], .ok ⟨false, some "Scraper not initialized"⟩⟩

/-- `retweet` (lines 115-128). -/
def retweet (st : AgentState) (tweetId : String) (outcome : CallOutcome) :
    OpRun TweetResult :=
  match ensureInitialized st with
  | .error m => ⟨[], .ok ⟨false, some m⟩⟩
  | .ok _ =>
    if st.hasScraper then
      match outcome with
      | .ok => ⟨[.retweet tweetId], .ok ⟨true, none⟩⟩
      | .err m => ⟨[.retweet tweetId], .ok ⟨false, some m⟩⟩
    else ⟨[], .ok ⟨false, some "Scraper not initialized"⟩⟩

/-- The `Profile` object returned by the scraper, with its optional fields. -/
structure ScrapedProfile where
  userId : Option String
  username : Option String
  name : Option String
  followersCount : Option Nat
  friendsCount : Option Nat

/-- The profile shape returned by `getProfile`. -/
structure ProfileResult where
  id : String
  username : String
  name : Option String
  followersCount : Option Nat
  followingCount : Option Nat

/-- Outcome of the scraper's `getProfile` call. -/
inductive ProfileOutcome where
  | ok (profile : ScrapedProfile)
  | err (message : String)

/-- `getProfile` (lines 189-213): `ensureInitialized` runs OUTSIDE the try
block, so its exception escapes unwrapped; a failure inside the try block is
caught and rethrown as a new error with a wrapped message.  Unlike the tweet
operations, this method returns the profile directly and signals every
failure by throwing. -/
def getProfile (st : AgentState) (username : String) (outcome : ProfileOutcome) :
    OpRun ProfileResult :=
  match ensureInitialized st with
  | .error m => ⟨[], .error m⟩
  | .ok _ =>
    if st.hasScraper then
      match outcome with
      | .ok p =>
        ⟨[.getProfile username],
         .ok ⟨p.userId.getD "", p.username.getD "", p.name,
              p.followersCount, p.friendsCount⟩⟩
      | .err m => ⟨[.getProfile username], .error ("Failed to get profile: " ++ m)⟩
    else ⟨[], .error ("Failed to get profile: Scraper not initialized")⟩

/-- True when an exception escapes the facade method instead of a value being
returned. -/
def escapesFacade {α : Type} : Except String α → Bool
  | .ok _ => false
  | .error _ => true

/-- An item produced by `scraper.searchTweets`, carrying its own creation
timestamp (which the polling loop never reads). -/
structure ScrapedTweet where
  id : String
  text : String
  createdAt : Int

/-- The event dispatched to `streamHandler.handleTweetEvent`; `createdAtMs`
models the `created_at` ISO string built from the observed timestamp. -/
structure TweetEvent where
  id : String
  text : String
  createdAtMs : Int

/-- One pass of the `for await` loop in the poll tick installed by
`startStream` (agentTwitterClient.ts lines 143-173): for the k-th fetched
tweet it takes `tweetTimestamp = Date.now()` — the clock reading at that
iteration, NOT the tweet's own timestamp — and dispatches the tweet exactly
when that reading exceeds `lastChecked`. -/
def pollTickGo (lastChecked : Int) (clock : Nat → Int) :
    Nat → List ScrapedTweet → List TweetEvent
  | _, [] => []
  | k, tw :: rest =>
    if lastChecked < clock k then
      ⟨tw.id, tw.text, clock k⟩ :: pollTickGo lastChecked clock (k + 1) rest
    else pollTickGo lastChecked clock (k + 1) rest

/-- The events dispatched during one poll tick, in fetch order.  `clock k` is
the `Date.now()` reading observed while processing the k-th fetched tweet. -/
def pollTick (lastChecked : Int) (clock : Nat → Int)
    (tweets : List ScrapedTweet) : List TweetEvent :=
  pollTickGo lastChecked clock 0 tweets

end AgentClient

/-! Helper lemmas about the retry loop. -/

theorem get_zero_head {α : Type} (l : List α) : l.get? 0 = l.head? := by
  cases l <;> rfl

theorem rateLimitWait_of_not_hit (e : TwitterService.ApiError) (now : Nat)
    (h : TwitterService.isRateLimitHit e = false) :
    TwitterService.rateLimitWait e now = none := by
  simp [TwitterService.rateLimitWait, h]

theorem postTweetWithRetryGo_rateLimit_step (cfg : TwitterService.RetryConfig)
    (op : Nat → Except TwitterService.ApiError Unit)
    (fuel attempt now : Nat) (lastError : Option TwitterService.ApiError)
    (e : TwitterService.ApiError) (r : Nat)
    (hop : op attempt = .error e)
    (hrw : TwitterService.rateLimitWait e now = some r) :
    TwitterService.postTweetWithRetryGo cfg op (fuel + 1) attempt now lastError =
      TwitterService.consCall attempt now
        (TwitterService.postTweetWithRetryGo cfg op fuel (attempt + 1) r (some e)) := by
  simp only [TwitterService.postTweetWithRetryGo, hop, hrw]

theorem postTweetWithRetryGo_backoff_step (cfg : TwitterService.RetryConfig)
    (op : Nat → Except TwitterService.ApiError Unit)
    (fuel attempt now : Nat) (lastError : Option TwitterService.ApiError)
    (e : TwitterService.ApiError)
    (hop : op attempt = .error e)
    (hrw : TwitterService.rateLimitWait e now = none)
    (hlt : attempt + 1 < cfg.maxRetries) :
    TwitterService.postTweetWithRetryGo cfg op (fuel + 1) attempt now lastError =
      TwitterService.consCall attempt now
        (TwitterService.postTweetWithRetryGo cfg op fuel (attempt + 1)
          (now + cfg.retryDelay * 2 ^ (attempt + 1)) (some e)) := by
  simp only [TwitterService.postTweetWithRetryGo, hop, hrw, if_pos hlt]

theorem postTweetWithRetryGo_noBackoff_step (cfg : TwitterService.RetryConfig)
    (op : Nat → Except TwitterService.ApiError Unit)
    (fuel attempt now : Nat) (lastError : Option TwitterService.ApiError)
    (e : TwitterService.ApiError)
    (hop : op attempt = .error e)
    (hrw : TwitterService.rateLimitWait e now = none)
    (hlt : ¬ attempt + 1 < cfg.maxRetries) :
    TwitterService.postTweetWithRetryGo cfg op (fuel + 1) attempt now lastError =
      TwitterService.consCall attempt now
        (TwitterService.postTweetWithRetryGo cfg op fuel (attempt + 1) now (some e)) := by
  simp only [TwitterService.postTweetWithRetryGo, hop, hrw, if_neg hlt]

theorem postTweetWithRetryGo_error_step (cfg : TwitterService.RetryConfig)
    (op : Nat → Except TwitterService.ApiError Unit)
    (fuel attempt now : Nat) (lastError : Option TwitterService.ApiError)
    (e : TwitterService.ApiError)
    (hop : op attempt = .error e) :
    ∃ t, TwitterService.postTweetWithRetryGo cfg op (fuel + 1) attempt now lastError =
      TwitterService.consCall attempt now
        (TwitterService.postTweetWithRetryGo cfg op fuel (attempt + 1) t (some e)) := by
  cases hrw : TwitterService.rateLimitWait e now with
  | some r =>
    exact ⟨r, postTweetWithRetryGo_rateLimit_step cfg op fuel attempt now lastError e r hop hrw⟩
  | none =>
    by_cases hlt : attempt + 1 < cfg.maxRetries
    · exact ⟨now + cfg.retryDelay * 2 ^ (attempt + 1),
        postTweetWithRetryGo_backoff_step cfg op fuel attempt now lastError e hop hrw hlt⟩
    · exact ⟨now, postTweetWithRetryGo_noBackoff_step cfg op fuel attempt now lastError e hop hrw hlt⟩

theorem postTweetWithRetryGo_head (cfg : TwitterService.RetryConfig)
    (op : Nat → Except TwitterService.ApiError Unit)
    (fuel attempt now : Nat) (lastError : Option TwitterService.ApiError) :
    (TwitterService.postTweetWithRetryGo cfg op (fuel + 1) attempt now lastError).calls.head? =
      some (attempt, now) := by
  cases hop : op attempt with
  | ok u =>
    simp only [TwitterService.postTweetWithRetryGo, hop]
    rfl
  | error e =>
    obtain ⟨t, ht⟩ := postTweetWithRetryGo_error_step cfg op fuel attempt now lastError e hop
    rw [ht]
    rfl

theorem postTweetWithRetryGo_all_fail (cfg : TwitterService.RetryConfig)
    (op : Nat → Except TwitterService.ApiError Unit)
    (e : Nat → TwitterService.ApiError)
    (hop : ∀ i, op i = .error (e i)) :
    ∀ fuel attempt now lastError,
      (TwitterService.postTweetWithRetryGo cfg op (fuel + 1) attempt now lastError).calls.length
          = fuel + 1 ∧
        (TwitterService.postTweetWithRetryGo cfg op (fuel + 1) attempt now lastError).outcome =
          .error (TwitterService.terminalMessage cfg.maxRetries (some (e (attempt + fuel)))) := by
  intro fuel
  induction fuel with
  | zero =>
    intro attempt now lastError
    obtain ⟨t, ht⟩ :=
      postTweetWithRetryGo_error_step cfg op 0 attempt now lastError (e attempt) (hop attempt)
    rw [ht]
    exact ⟨rfl, rfl⟩
  | succ f ih =>
    intro attempt now lastError
    obtain ⟨t, ht⟩ :=
      postTweetWithRetryGo_error_step cfg op (f + 1) attempt now lastError (e attempt) (hop attempt)
    rw [ht]
    obtain ⟨ih1, ih2⟩ := ih (attempt + 1) t (some (e attempt))
    constructor
    · simp [TwitterService.consCall, ih1]
    · have hidx : attempt + 1 + f = attempt + (f + 1) := by omega
      simp only [TwitterService.consCall]
      rw [ih2, hidx]

/-! Claim theorems. -/

/-- C1: for every content string with length > 280, the validation step at the
top of `postTweet` fails with the content-too-long error — with no assumption
on the content's emoji or hashtag counts, which this validation never
consults. -/
theorem c1_overlong_content_rejected (content : String)
    (send : String → Except TwitterService.ApiError Unit)
    (h : 280 < content.length) :
    TwitterService.postTweet content send = .error "Tweet exceeds 280 characters" := by
  have hne : content ≠ "" := by
    intro hc
    rw [hc] at h
    simp at h
  unfold TwitterService.postTweet TwitterService.postTweetValidation
  rw [if_neg hne, if_pos h]

set_option maxRecDepth 8192 in
/-- Witness for C1 at a concrete 281-character content. -/
theorem c1_witness :
    280 < (String.mk (List.replicate 281 'x')).length ∧
      TwitterService.postTweet (String.mk (List.replicate 281 'x')) (fun _ => .ok ()) =
        .error "Tweet exceeds 280 characters" :=
  ⟨by decide, c1_overlong_content_rejected _ _ (by decide)⟩

/-- An operation that fails on every attempt with a 429 rate-limit error whose
reset timestamp (epoch seconds 10, 20, 30, …) always lies in the future of
the corresponding call. -/
def alwaysRateLimited (i : Nat) : Except TwitterService.ApiError Unit :=
  .error (.response 429 (some (10 * i + 10)) "Rate limit exceeded")

/-- C2 counterexample: with `maxRetries = 3` and an operation that fails on
every attempt with a rate-limit error carrying a future reset timestamp, the
wrapper performs exactly 3 attempts (each delayed to the reset time) and then
throws the terminal error — every rate-limited attempt counted against the
ceiling, and the wrapper did not retry indefinitely.  (`attempt++` at
part_000 line 46 runs before the rate-limit branch is examined.) -/
theorem c2_counterexample :
    TwitterService.postTweetWithRetry ⟨3, 5000⟩ alwaysRateLimited 0 =
      ⟨[(0, 0), (1, 10000), (2, 20000)],
        .error "Failed to post tweet after 3 attempts: Rate limit exceeded"⟩ := by
  rfl

/-- C2 amended: the rate-limit branch sleeps until the reset timestamp before
retrying, but the failed attempt still counts against `maxRetries`; any
operation that fails on every attempt — in particular one that always fails
with a future-reset rate-limit error — performs exactly `maxRetries` attempts
and then surfaces the terminal error instead of retrying indefinitely. -/
theorem c2_rate_limited_attempts_counted (cfg : TwitterService.RetryConfig)
    (op : Nat → Except TwitterService.ApiError Unit) (startTime : Nat)
    (h : ∀ i, ∃ e, op i = .error e) :
    (TwitterService.postTweetWithRetry cfg op startTime).calls.length = cfg.maxRetries ∧
      ∃ m, (TwitterService.postTweetWithRetry cfg op startTime).outcome = .error m := by
  choose e he using h
  unfold TwitterService.postTweetWithRetry
  cases hmr : cfg.maxRetries with
  | zero => exact ⟨rfl, _, rfl⟩
  | succ k =>
    obtain ⟨h1, h2⟩ := postTweetWithRetryGo_all_fail cfg op e he k 0 startTime none
    exact ⟨h1, _, h2⟩

/-- Witness for the amended C2 at the always-rate-limited operation. -/
theorem c2_witness :
    (TwitterService.postTweetWithRetry ⟨3, 5000⟩ alwaysRateLimited 0).calls.length = 3 ∧
      ∃ m, (TwitterService.postTweetWithRetry ⟨3, 5000⟩ alwaysRateLimited 0).outcome =
        .error m :=
  c2_rate_limited_attempts_counted ⟨3, 5000⟩ alwaysRateLimited 0 (fun _ => ⟨_, rfl⟩)

/-- C5: an operation that always fails with a non-rate-limit error is tried
exactly `maxRetries` times, after which the wrapper throws the terminal error
naming the attempt count and the message of the last underlying failure. -/
theorem c5_exhausts_attempts (cfg : TwitterService.RetryConfig)
    (op : Nat → Except TwitterService.ApiError Unit) (startTime : Nat)
    (e : Nat → TwitterService.ApiError)
    (hop : ∀ i, op i = .error (e i))
    (hrl : ∀ i, TwitterService.isRateLimitHit (e i) = false)
    (hmsg : ∀ i, (e i).message ≠ "")
    (hmax : 1 ≤ cfg.maxRetries) :
    (TwitterService.postTweetWithRetry cfg op startTime).calls.length = cfg.maxRetries ∧
      (TwitterService.postTweetWithRetry cfg op startTime).outcome =
        .error ("Failed to post tweet after " ++ toString cfg.maxRetries ++
          " attempts: " ++ (e (cfg.maxRetries - 1)).message) := by
  obtain ⟨k, hk⟩ : ∃ k, cfg.maxRetries = k + 1 := ⟨cfg.maxRetries - 1, by omega⟩
  unfold TwitterService.postTweetWithRetry
  rw [hk]
  obtain ⟨h1, h2⟩ := postTweetWithRetryGo_all_fail cfg op e hop k 0 startTime none
  refine ⟨h1, ?_⟩
  rw [h2, hk]
  have hzk : (0 : Nat) + k = k := by omega
  rw [hzk]
  simp only [TwitterService.terminalMessage, TwitterService.lastErrorMessage]
  rw [if_neg (hmsg k)]
  rfl

/-- Witness for C5: three attempts with a generic error, terminal message
carries the count and the last message. -/
theorem c5_witness :
    (TwitterService.postTweetWithRetry ⟨3, 5000⟩
        (fun _ => .error (.generic "boom")) 0).calls.length = 3 ∧
      (TwitterService.postTweetWithRetry ⟨3, 5000⟩
          (fun _ => .error (.generic "boom")) 0).outcome =
        .error ("Failed to post tweet after " ++ toString 3 ++ " attempts: " ++
          (TwitterService.ApiError.generic "boom").message) := by
  have hb : ("boom" : String) ≠ "" := by decide
  exact c5_exhausts_attempts ⟨3, 5000⟩ (fun _ => .error (.generic "boom")) 0
    (fun _ => .generic "boom") (fun _ => rfl) (fun _ => rfl)
    (fun _ => hb) (by decide)

/-- C6: when the attempt indexed `attempt` fails with an error offering no
usable rate-limit reset (`rateLimitWait` is `none`: not a 429, no reset
metadata, or a reset not in the future) and a further attempt remains, the
loop sleeps `retryDelay * 2 ^ (attempt + 1)` ms — exponential in the attempt
counter, whose value after recording the failure is `attempt + 1` — so the
next call starts exactly that long after the failed one.  The fuel
`cfg.maxRetries - attempt` is the loop guard of every reachable loop state. -/
theorem c6_exponential_backoff (cfg : TwitterService.RetryConfig)
    (op : Nat → Except TwitterService.ApiError Unit)
    (attempt now : Nat) (lastError : Option TwitterService.ApiError)
    (e : TwitterService.ApiError)
    (hop : op attempt = .error e)
    (hrw : TwitterService.rateLimitWait e now = none)
    (hlt : attempt + 1 < cfg.maxRetries) :
    (TwitterService.postTweetWithRetryGo cfg op (cfg.maxRetries - attempt)
        attempt now lastError).calls.get? 1 =
      some (attempt + 1, now + cfg.retryDelay * 2 ^ (attempt + 1)) := by
  obtain ⟨f, hf⟩ : ∃ f, cfg.maxRetries - attempt = f + 2 :=
    ⟨cfg.maxRetries - attempt - 2, by omega⟩
  rw [hf]
  rw [show f + 2 = (f + 1) + 1 from rfl]
  rw [postTweetWithRetryGo_backoff_step cfg op (f + 1) attempt now lastError e hop hrw hlt]
  simp only [TwitterService.consCall]
  rw [List.get?_cons_succ, get_zero_head]
  exact postTweetWithRetryGo_head cfg op f (attempt + 1)
    (now + cfg.retryDelay * 2 ^ (attempt + 1)) (some e)

/-- Witness for C6: first attempt fails with a generic error at time 0 under
`retryDelay = 5000`; the second call starts at 5000 * 2 ^ 1 = 10000 ms. -/
theorem c6_witness :
    (TwitterService.postTweetWithRetryGo ⟨3, 5000⟩
        (fun _ => .error (.generic "boom")) (3 - 0) 0 0 none).calls.get? 1 =
      some (0 + 1, 0 + 5000 * 2 ^ (0 + 1)) :=
  c6_exponential_backoff ⟨3, 5000⟩ (fun _ => .error (.generic "boom")) 0 0 none
    (.generic "boom") rfl rfl (by decide)

/-- C7: when an attempt fails with a 429 rate-limit error whose reset
metadata converts (seconds to milliseconds) to a timestamp `resetMs` strictly
in the future, and a further attempt remains, the loop sleeps until exactly
`resetMs`, so the next call begins at `resetMs` — no earlier than it. -/
theorem c7_retry_not_before_reset (cfg : TwitterService.RetryConfig)
    (op : Nat → Except TwitterService.ApiError Unit)
    (attempt now resetMs : Nat) (lastError : Option TwitterService.ApiError)
    (e : TwitterService.ApiError)
    (hop : op attempt = .error e)
    (h429 : TwitterService.isRateLimitHit e = true)
    (hreset : TwitterService.getRateLimitReset e = some resetMs)
    (hfuture : now < resetMs)
    (hlt : attempt + 1 < cfg.maxRetries) :
    (TwitterService.postTweetWithRetryGo cfg op (cfg.maxRetries - attempt)
        attempt now lastError).calls.get? 1 = some (attempt + 1, resetMs) := by
  have hrw : TwitterService.rateLimitWait e now = some resetMs := by
    simp [TwitterService.rateLimitWait, h429, hreset, hfuture]
  obtain ⟨f, hf⟩ : ∃ f, cfg.maxRetries - attempt = f + 2 :=
    ⟨cfg.maxRetries - attempt - 2, by omega⟩
  rw [hf]
  rw [show f + 2 = (f + 1) + 1 from rfl]
  rw [postTweetWithRetryGo_rateLimit_step cfg op (f + 1) attempt now lastError e resetMs hop hrw]
  simp only [TwitterService.consCall]
  rw [List.get?_cons_succ, get_zero_head]
  exact postTweetWithRetryGo_head cfg op f (attempt + 1) resetMs (some e)

/-- Witness for C7: a 429 with reset metadata 10 s converts to 10000 ms; the
first attempt at time 0 fails and the second call starts at 10000 ms. -/
theorem c7_witness :
    (TwitterService.postTweetWithRetryGo ⟨3, 5000⟩
        (fun _ => .error (.response 429 (some 10) "rl")) (3 - 0) 0 0 none).calls.get? 1 =
      some (0 + 1, 10000) :=
  c7_retry_not_before_reset ⟨3, 5000⟩ (fun _ => .error (.response 429 (some 10) "rl"))
    0 0 10000 none (.response 429 (some 10) "rl") rfl rfl rfl (by decide) (by decide)

/-- C3 counterexample: with `lastChecked = t = 100` and three fetched items
whose own timestamps are [t-10, t+5, t+20] = [90, 105, 120], a tick whose
clock reads 101 while processing each item dispatches ALL THREE items —
including the one stamped t-10, which the claim says is never dispatched.
The loop compares `Date.now()` against `lastChecked`, never the items' own
timestamps. -/
theorem c3_counterexample :
    (AgentClient.pollTick 100 (fun _ => 101)
        [⟨"old", "a", 90⟩, ⟨"mid", "b", 105⟩, ⟨"new", "c", 120⟩]).map
        AgentClient.TweetEvent.id = ["old", "mid", "new"] := by
  rfl

/-- C3 amended: during one poll tick an item is dispatched exactly when the
wall-clock reading taken while processing it exceeds `lastChecked`; the items'
own timestamps are ignored.  In particular, whenever every clock reading of
the tick exceeds `t`, all three fetched items — whatever their timestamps,
including t-10, t+5, t+20 — are dispatched, in fetch order, each once. -/
theorem c3_clock_decides_dispatch (t : Int) (clock : Nat → Int)
    (t1 t2 t3 : AgentClient.ScrapedTweet) (h : ∀ k, t < clock k) :
    (AgentClient.pollTick t clock [t1, t2, t3]).map
        (fun ev => (ev.id, ev.text)) =
      [(t1.id, t1.text), (t2.id, t2.text), (t3.id, t3.text)] := by
  simp [AgentClient.pollTick, AgentClient.pollTickGo, h 0, h 1, h 2]

/-- Witness for the amended C3: clock fixed at 101 > t = 100 dispatches the
items stamped 90, 105, 120 alike. -/
theorem c3_witness :
    (AgentClient.pollTick 100 (fun _ => 101)
        [⟨"old", "a", 90⟩, ⟨"mid", "b", 105⟩, ⟨"new", "c", 120⟩]).map
        (fun ev => (ev.id, ev.text)) =
      [("old", "a"), ("mid", "b"), ("new", "c")] := by
  have hc : (100 : Int) < 101 := by decide
  exact c3_clock_decides_dispatch 100 (fun _ => 101) ⟨"old", "a", 90⟩ ⟨"mid", "b", 105⟩
    ⟨"new", "c", 120⟩ (fun _ => hc)

/-- C4 counterexample: `getProfile` on an initialized service whose
underlying call fails does not return a success/failure result — the wrapped
error (carrying the underlying cause) is thrown past the facade boundary. -/
theorem c4_counterexample :
    (AgentClient.getProfile ⟨true, true⟩ "bob" (.err "network down")).result =
      .error "Failed to get profile: network down" := by
  rfl

/-- C4 amended: the four tweet-level operations (post, reply, like, repost)
return a success/failure result and never let a failure escape the facade,
wrapping the underlying cause into the result; profile lookup is the
exception — it returns the profile directly and throws a wrapped error
(carrying the underlying message) on failure, including the
not-initialized error raised outside its try block. -/
theorem c4_facade_error_results :
    (∀ st content outcome,
      AgentClient.escapesFacade (AgentClient.sendTweet st content outcome).result = false) ∧
    (∀ st content outcome,
      AgentClient.escapesFacade (AgentClient.postTweet st content outcome).result = false) ∧
    (∀ st tweetId content username outcome,
      AgentClient.escapesFacade
        (AgentClient.replyToTweet st tweetId content username outcome).result = false) ∧
    (∀ st tweetId outcome,
      AgentClient.escapesFacade (AgentClient.likeTweet st tweetId outcome).result = false) ∧
    (∀ st tweetId outcome,
      AgentClient.escapesFacade (AgentClient.retweet st tweetId outcome).result = false) ∧
    (∀ content m, (AgentClient.sendTweet ⟨true, true⟩ content (.err m)).result =
      .ok ⟨false, some m⟩) ∧
    (∀ username m, (AgentClient.getProfile ⟨true, true⟩ username (.err m)).result =
      .error ("Failed to get profile: " ++ m)) := by
  refine ⟨?_, ?_, ?_, ?_, ?_, ?_, ?_⟩
  · intro st content outcome
    rcases st with ⟨i, s⟩
    cases i <;> cases s <;> cases outcome <;> rfl
  · intro st content outcome
    rcases st with ⟨i, s⟩
    cases i <;> cases s <;> cases outcome <;> rfl
  · intro st tweetId content username outcome
    rcases st with ⟨i, s⟩
    cases i <;> cases s <;> cases outcome <;> rfl
  · intro st tweetId outcome
    rcases st with ⟨i, s⟩
    cases i <;> cases s <;> cases outcome <;> rfl
  · intro st tweetId outcome
    rcases st with ⟨i, s⟩
    cases i <;> cases s <;> cases outcome <;> rfl
  · intro content m
    rfl
  · intro username m
    rfl

/-- C8: `replyToTweet` never reads its `tweetId` argument — its outcome is
identical for any two ids — and the text it submits through the scraper's
plain `sendTweet` call (an ordinary tweet, with no threaded reply target) is
`@username content`, or `username content` when the username already starts
with `@`. -/
theorem c8_reply_ignores_tweet_id :
    (∀ st tweetId1 tweetId2 content username outcome,
      AgentClient.replyToTweet st tweetId1 content username outcome =
        AgentClient.replyToTweet st tweetId2 content username outcome) ∧
    (∀ tweetId content username outcome,
      (AgentClient.replyToTweet ⟨true, true⟩ tweetId content username outcome).calls =
        [AgentClient.ScraperCall.sendTweet
          (if username.startsWith "@" then username ++ " " ++ content
           else "@" ++ username ++ " " ++ content)]) := by
  constructor
  · intro st t1 t2 content username outcome
    rfl
  · intro tweetId content username outcome
    cases outcome <;> rfl

/-- C9: whenever `initialize()` has not completed successfully
(`isInitialized = false`), each of the five tweet-level operations returns
`{ success: false }` carrying the not-initialized error message and performs
no scraper call. -/
theorem c9_uninitialized_rejects (st : AgentClient.AgentState)
    (h : st.isInitialized = false) :
    ∀ content tweetId username outcome,
      AgentClient.sendTweet st content outcome =
        ⟨[], .ok ⟨false, some AgentClient.notInitializedMessage⟩⟩ ∧
      AgentClient.postTweet st content outcome =
        ⟨[], .ok ⟨false, some AgentClient.notInitializedMessage⟩⟩ ∧
      AgentClient.replyToTweet st tweetId content username outcome =
        ⟨[], .ok ⟨false, some AgentClient.notInitializedMessage⟩⟩ ∧
      AgentClient.likeTweet st tweetId outcome =
        ⟨[], .ok ⟨false, some AgentClient.notInitializedMessage⟩⟩ ∧
      AgentClient.retweet st tweetId outcome =
        ⟨[], .ok ⟨false, some AgentClient.notInitializedMessage⟩⟩ := by
  rcases st with ⟨i, s⟩
  have hi : i = false := h
  subst hi
  intro content tweetId username outcome
  exact ⟨rfl, rfl, rfl, rfl, rfl⟩

/-- Witness for C9 at a concrete uninitialized state. -/
theorem c9_witness :
    AgentClient.sendTweet ⟨false, true⟩ "hello" .ok =
        ⟨[], .ok ⟨false, some AgentClient.notInitializedMessage⟩⟩ ∧
      AgentClient.postTweet ⟨false, true⟩ "hello" .ok =
        ⟨[], .ok ⟨false, some AgentClient.notInitializedMessage⟩⟩ ∧
      AgentClient.replyToTweet ⟨false, true⟩ "42" "hello" "bob" .ok =
        ⟨[], .ok ⟨false, some AgentClient.notInitializedMessage⟩⟩ ∧
      AgentClient.likeTweet ⟨false, true⟩ "42" .ok =
        ⟨[], .ok ⟨false, some AgentClient.notInitializedMessage⟩⟩ ∧
      AgentClient.retweet ⟨false, true⟩ "42" .ok =
        ⟨[], .ok ⟨false, some AgentClient.notInitializedMessage⟩⟩ :=
  c9_uninitialized_rejects ⟨false, true⟩ rfl "hello" "42" "bob" .ok

/-- C10: in every reachable state of `TwitterService`, `getTweetCount()`
returns 0 and `getRemainingTweets()` returns the monthly limit 3000 — no
operation of the service ever writes `tweetCount`. -/
theorem c10_tweet_count_invariant (s : TwitterService.ServiceState)
    (h : TwitterService.Reachable s) :
    TwitterService.getTweetCount s = 0 ∧
      TwitterService.getRemainingTweets s = 3000 := by
  induction h with
  | init => exact ⟨rfl, rfl⟩
  | step s' o hs ih =>
    have hc : (TwitterService.applyOp s' o).tweetCount = s'.tweetCount := by
      cases o <;> rfl
    have h1 : TwitterService.getTweetCount (TwitterService.applyOp s' o) = 0 := by
      show (TwitterService.applyOp s' o).tweetCount = 0
      rw [hc]
      exact ih.1
    refine ⟨h1, ?_⟩
    unfold TwitterService.getRemainingTweets
    rw [h1]
    rfl

/-- Witness for C10 at the constructor state. -/
theorem c10_witness :
    TwitterService.getTweetCount TwitterService.initialServiceState = 0 ∧
      TwitterService.getRemainingTweets TwitterService.initialServiceState = 3000 :=
  c10_tweet_count_invariant TwitterService.initialServiceState
    TwitterService.Reachable.init
